import Mathlib

/-!
Verification of the root-span builder of `tracing-actix-web`
(src/root_span_builder.rs), as a shallow embedding.

A tracing span is modelled as the ordered list of `span.record` calls made
on it: each call contributes one `(attribute-name, value)` pair.  HTTP
status codes are 16-bit unsigned integers; the recorded `status` attribute
is the `i32` widening of that `u16`, modelled as `Int.ofNat`.
-/

/-- The value written by a single `span.record` call: either an `i32`
(the `status` attribute) or a fully materialized string. -/
inductive FieldValue where
  | int (i : Int)
  | str (s : String)
deriving DecidableEq, Repr

/-- The `http::StatusCode` wrapper: `as_u16` returns the underlying 16-bit
code, hence the bound. -/
structure StatusCode where
  as_u16 : Nat
  lt_size : as_u16 < 65536
deriving DecidableEq, Repr

/-- A borrowed `&dyn ResponseError`: it exposes a `Display` rendering,
a `Debug` rendering and a resolved natural status code
(`ResponseError::status_code`). -/
structure ResponseError where
  display : String
  debug : String
  status_code : StatusCode
deriving DecidableEq, Repr

/-- The outgoing `ServiceResponse`: its own status code
(`response.status()` and `response.response().status()` agree), and the
optional embedded error (`response.response().error()`). -/
structure ServiceResponse where
  status : StatusCode
  error : Option ResponseError
deriving DecidableEq, Repr

/-- The `outcome` argument of `on_request_end`: a
`Result\x7bServiceResponse, Error\x7d`, where the `Err` payload is used
only through `error.as_response_error()`. -/
inductive Outcome where
  | ok (response : ServiceResponse)
  | err (error : ResponseError)
deriving DecidableEq, Repr

/-- One record call, in source order, as `fn handle_error` makes them:
the display string is materialized first, then the debug string, then both
are recorded, then the status code is widened to `i32` and recorded. -/
def handle_error (status_code : StatusCode) (response_error : ResponseError) :
    List (String × FieldValue) :=
  let display := response_error.display
  let debug := response_error.debug
  let code : Int := Int.ofNat status_code.as_u16
  [("exception.message", FieldValue.str display),
   ("exception.details", FieldValue.str debug),
   ("status", FieldValue.int code)]

/-- The record calls made by `DefaultRootSpanBuilder::on_request_end`,
translated branch by branch from the source `match` on `outcome`. -/
def on_request_end (outcome : Outcome) : List (String × FieldValue) :=
  match outcome with
  | Outcome.ok response =>
    match response.error with
    | some error => handle_error response.status error
    | none =>
      let code : Int := Int.ofNat response.status.as_u16
      [("status", FieldValue.int code)]
  | Outcome.err error =>
    let response_error := error
    handle_error response_error.status_code response_error

/-- The read-only `ServiceRequest` view used at request start: method,
matched route template and client address. -/
structure ServiceRequest where
  method : String
  endpoint : String
  client_ip : String
deriving DecidableEq, Repr

/-- A span handle: either the no-op span of a disabled tracing context, or
an enabled span seeded with initial attributes. -/
inductive Span where
  | noop
  | real (fields : List (String × FieldValue))
deriving DecidableEq, Repr

/-- Modelled from the spec: the `root_span!` macro (`crate::root_span`)
invoked by `DefaultRootSpanBuilder::on_request_start` is not part of this
file's source. Per the spec it seeds a span with the request's method,
route template and client address, and when the tracing context is
disabled it yields a no-op span rather than an error. The `Except`
codomain makes the absence of a failure path a provable statement. -/
def on_request_start (tracingEnabled : Bool) (request : ServiceRequest) :
    Except String Span :=
  if tracingEnabled then
    Except.ok (Span.real
      [("method", FieldValue.str request.method),
       ("endpoint", FieldValue.str request.endpoint),
       ("client_ip", FieldValue.str request.client_ip)])
  else
    Except.ok Span.noop

/-- Look up the value recorded under attribute name `k` (first record
call with that name). -/
def lookupField (k : String) (recs : List (String × FieldValue)) :
    Option FieldValue :=
  (recs.find? (fun p => p.fst == k)).map (fun p => p.snd)

/-- How many record calls target attribute name `k`. -/
def countKey (k : String) (recs : List (String × FieldValue)) : Nat :=
  (recs.filter (fun p => p.fst == k)).length

/-- Does this outcome take an error path (embedded error or failure)? -/
def isErrorPath (outcome : Outcome) : Bool :=
  match outcome with
  | Outcome.ok response => response.error.isSome
  | Outcome.err _ => true

/-- The status code each branch of `on_request_end` records: the
response's own status on the `Ok` branches, the error's natural status
code on the `Err` branch. -/
def statusSource (outcome : Outcome) : StatusCode :=
  match outcome with
  | Outcome.ok response => response.status
  | Outcome.err error => error.status_code

/-- C1: on a success carrying an embedded error, the recorded `status` is
the response's own status code, for every embedded error — in particular
also when the error's natural status code differs from it. -/
theorem c1_embedded_error_uses_response_status
    (st : StatusCode) (e : ResponseError) :
    lookupField "status"
      (on_request_end (Outcome.ok ⟨st, some e⟩)) =
      some (FieldValue.int (Int.ofNat st.as_u16)) := by
  simp [on_request_end, handle_error, lookupField, List.find?]

/-- C2: on a plain success the record calls are exactly one `status`
record with the response's numeric status code, and neither
`exception.message` nor `exception.details` is written. -/
theorem c2_plain_success_status_only (st : StatusCode) :
    on_request_end (Outcome.ok ⟨st, none⟩) =
      [("status", FieldValue.int (Int.ofNat st.as_u16))] ∧
    lookupField "exception.message"
      (on_request_end (Outcome.ok ⟨st, none⟩)) = none ∧
    lookupField "exception.details"
      (on_request_end (Outcome.ok ⟨st, none⟩)) = none := by
  refine ⟨rfl, ?_, ?_⟩ <;>
    simp [on_request_end, lookupField, List.find?]

/-- C3: on a transport-level failure, `on_request_end` delegates to
`handle_error` applied to the error's own natural status code and that
same error, so the recorded `status` is the error's natural code. -/
theorem c3_failure_uses_natural_status (e : ResponseError) :
    on_request_end (Outcome.err e) = handle_error e.status_code e ∧
    lookupField "status" (on_request_end (Outcome.err e)) =
      some (FieldValue.int (Int.ofNat e.status_code.as_u16)) := by
  refine ⟨rfl, ?_⟩
  simp [on_request_end, handle_error, lookupField, List.find?]

/-- C4: every outcome records `status` exactly once, and on an error path
the record calls are exactly `exception.message`, then
`exception.details`, then `status`, in that order. -/
theorem c4_status_once_and_error_order (outcome : Outcome) :
    countKey "status" (on_request_end outcome) = 1 ∧
    (isErrorPath outcome = true →
      (on_request_end outcome).map Prod.fst =
        ["exception.message", "exception.details", "status"]) := by
  cases outcome with
  | ok response =>
    cases h : response.error with
    | none =>
      constructor
      · simp [on_request_end, h, countKey]
      · intro hp
        simp [isErrorPath, h] at hp
    | some e =>
      constructor
      · simp [on_request_end, h, handle_error, countKey]
      · intro _
        simp [on_request_end, h, handle_error]
  | err e =>
    constructor
    · simp [on_request_end, handle_error, countKey]
    · intro _
      simp [on_request_end, handle_error]

/-- Witness for C4 at a concrete failure outcome. -/
theorem c4_status_once_and_error_order_witness :
    countKey "status"
      (on_request_end (Outcome.err ⟨"boom", "Boom", ⟨500, by decide⟩⟩)) = 1 ∧
    (on_request_end
        (Outcome.err ⟨"boom", "Boom", ⟨500, by decide⟩⟩)).map Prod.fst =
      ["exception.message", "exception.details", "status"] :=
  ⟨(c4_status_once_and_error_order
      (Outcome.err ⟨"boom", "Boom", ⟨500, by decide⟩⟩)).1,
   (c4_status_once_and_error_order
      (Outcome.err ⟨"boom", "Boom", ⟨500, by decide⟩⟩)).2 rfl⟩

/-- C5: `handle_error` records the error's display rendering under
`exception.message` and its debug rendering under `exception.details`;
both are plain `String` values in the record list, i.e. fully
materialized before the record calls. -/
theorem c5_handle_error_message_and_details
    (sc : StatusCode) (e : ResponseError) :
    lookupField "exception.message" (handle_error sc e) =
      some (FieldValue.str e.display) ∧
    lookupField "exception.details" (handle_error sc e) =
      some (FieldValue.str e.debug) := by
  constructor <;> simp [handle_error, lookupField, List.find?]

/-- C6 counterexample: the code copies the error's renderings verbatim,
so an error whose `Display` rendering is the empty string yields an empty
recorded `exception.message`, refuting the unconditional claim. -/
theorem c6_counterexample :
    ¬ (∀ (e : ResponseError) (s : String),
        lookupField "exception.message" (on_request_end (Outcome.err e)) =
          some (FieldValue.str s) →
        s ≠ "") := by
  intro h
  exact h ⟨"", "nonempty debug", ⟨500, by decide⟩⟩ "" (by decide) rfl

/-- C6 (amended): whenever the error's own renderings are non-empty and
its debug rendering contains its display rendering, the recorded
`exception.message` and `exception.details` are non-empty and the
recorded details contain the recorded message. -/
theorem c6_renderings_propagate
    (sc : StatusCode) (e : ResponseError)
    (hd : 0 < e.display.length) (hg : 0 < e.debug.length)
    (hsub : ∃ p q, e.debug = p ++ e.display ++ q) :
    ∃ m d, lookupField "exception.message" (handle_error sc e) =
        some (FieldValue.str m) ∧
      lookupField "exception.details" (handle_error sc e) =
        some (FieldValue.str d) ∧
      0 < m.length ∧ 0 < d.length ∧ ∃ p q, d = p ++ m ++ q := by
  refine ⟨e.display, e.debug, ?_, ?_, hd, hg, hsub⟩ <;>
    simp [handle_error, lookupField, List.find?]

/-- Witness for C6 (amended) at a concrete error. -/
theorem c6_renderings_propagate_witness :
    ∃ m d, lookupField "exception.message"
        (handle_error ⟨500, by decide⟩
          ⟨"oops", "DbError: oops (caused by timeout)", ⟨500, by decide⟩⟩) =
        some (FieldValue.str m) ∧
      lookupField "exception.details"
        (handle_error ⟨500, by decide⟩
          ⟨"oops", "DbError: oops (caused by timeout)", ⟨500, by decide⟩⟩) =
        some (FieldValue.str d) ∧
      0 < m.length ∧ 0 < d.length ∧ ∃ p q, d = p ++ m ++ q :=
  c6_renderings_propagate ⟨500, by decide⟩
    ⟨"oops", "DbError: oops (caused by timeout)", ⟨500, by decide⟩⟩
    (by decide) (by decide)
    ⟨"DbError: ", " (caused by timeout)", by decide⟩

/-- C7: `on_request_start` is infallible on every input: it returns a
span for every request, and a disabled tracing context yields the no-op
span rather than an error. -/
theorem c7_on_request_start_infallible (request : ServiceRequest) :
    (∀ enabled : Bool, ∃ s : Span,
        on_request_start enabled request = Except.ok s) ∧
    on_request_start false request = Except.ok Span.noop := by
  constructor
  · intro enabled
    cases enabled with
    | false => exact ⟨Span.noop, rfl⟩
    | true =>
      exact ⟨Span.real
        [("method", FieldValue.str request.method),
         ("endpoint", FieldValue.str request.endpoint),
         ("client_ip", FieldValue.str request.client_ip)], rfl⟩
  · rfl

/-- C8: `on_request_end` is total over all three outcome shapes and its
only effect is recording attributes: every outcome yields at least one
record call, and every record call targets one of the three terminal
attribute names. -/
theorem c8_on_request_end_total (outcome : Outcome) :
    0 < (on_request_end outcome).length ∧
    (on_request_end outcome).all
      (fun p => p.fst == "status" || p.fst == "exception.message" ||
        p.fst == "exception.details") = true := by
  cases outcome with
  | ok response =>
    cases h : response.error with
    | none => simp [on_request_end, h]
    | some e => simp [on_request_end, h, handle_error]
  | err e => simp [on_request_end, handle_error]

/-- C9: the default strategy is a pure function of its arguments: two
invocations of `on_request_start` or `on_request_end` on equal inputs
produce equal results, with no state other than the arguments involved. -/
theorem c9_stateless_deterministic
    (enabled1 enabled2 : Bool) (req1 req2 : ServiceRequest)
    (o1 o2 : Outcome)
    (he : enabled1 = enabled2) (hr : req1 = req2) (ho : o1 = o2) :
    on_request_start enabled1 req1 = on_request_start enabled2 req2 ∧
    on_request_end o1 = on_request_end o2 := by
  subst he; subst hr; subst ho; exact ⟨rfl, rfl⟩

/-- Witness for C9 at concrete equal inputs. -/
theorem c9_stateless_deterministic_witness :
    on_request_start true ⟨"GET", "/items/\x7bid\x7d", "127.0.0.1"⟩ =
      on_request_start true ⟨"GET", "/items/\x7bid\x7d", "127.0.0.1"⟩ ∧
    on_request_end (Outcome.ok ⟨⟨200, by decide⟩, none⟩) =
      on_request_end (Outcome.ok ⟨⟨200, by decide⟩, none⟩) :=
  c9_stateless_deterministic true true
    ⟨"GET", "/items/\x7bid\x7d", "127.0.0.1"⟩
    ⟨"GET", "/items/\x7bid\x7d", "127.0.0.1"⟩
    (Outcome.ok ⟨⟨200, by decide⟩, none⟩)
    (Outcome.ok ⟨⟨200, by decide⟩, none⟩)
    rfl rfl rfl

/-- C10: in every branch the recorded `status` is the exact widening of
the 16-bit code into a signed 32-bit integer: it equals
`Int.ofNat` of the `u16`, lies in `[0, 65535]` (so it fits in an `i32`
without overflow), and converting back recovers the original code. -/
theorem c10_status_exact_widening (outcome : Outcome) :
    lookupField "status" (on_request_end outcome) =
      some (FieldValue.int (Int.ofNat (statusSource outcome).as_u16)) ∧
    0 ≤ Int.ofNat (statusSource outcome).as_u16 ∧
    Int.ofNat (statusSource outcome).as_u16 ≤ 65535 ∧
    (Int.ofNat (statusSource outcome).as_u16).toNat =
      (statusSource outcome).as_u16 := by
  refine ⟨?_, Int.ofNat_nonneg _, ?_, Int.toNat_ofNat _⟩
  · cases outcome with
    | ok response =>
      cases h : response.error with
      | none => simp [on_request_end, h, statusSource, lookupField, List.find?]
      | some e =>
        simp [on_request_end, h, statusSource, handle_error, lookupField,
          List.find?]
    | err e =>
      simp [on_request_end, statusSource, handle_error, lookupField,
        List.find?]
  · have h := (statusSource outcome).lt_size
    show ((statusSource outcome).as_u16 : Int) ≤ 65535
    omega
